import Mathlib

/-!
Verification of the animation-sequencing logic of a personal-portfolio page.

The page has two parallel implementations of the same visual behaviour:

* a React/framer-motion variant (`AnimatedWordmark.jsx`, `ContentReveal.jsx`,
  `App.jsx`), and
* framework-free variants (a Web-Animations-API wordmark, a GSAP wordmark and
  a GSAP `ContentReveal` controller).

This file embeds the timing and state logic of those scripts shallowly:
times are natural numbers in milliseconds (the sources use either ms or
seconds; seconds are converted by *1000), opacities and scales are natural
numbers in hundredths (opacity 0.4 becomes 40), and vertical offsets are
integers in CSS pixels.  Scheduling is modelled as lists of pending timers /
timeline entries with absolute or timeline-relative start times, exactly as
the sources compute them.
-/

namespace Wordmark

/-- Timing configuration of the `AnimatedWordmark` class (both the
Web-Animations variant and the GSAP variant use the same numbers; the GSAP
one stores seconds, converted here to ms).  Fields mirror the constructor
options. -/
structure Config where
  staggerDelay : Nat
  charDuration : Nat
  initialDelay : Nat
  cursorBlinkDuration : Nat
  showCursor : Bool
deriving DecidableEq

/-- Default options used by the auto-initializer:
`staggerDelay: 150, charDuration: 500, initialDelay: 300, showCursor: true`
(cursor blink 530ms is the constructor default). -/
def defaultConfig : Config :=
  { staggerDelay := 150
    charDuration := 500
    initialDelay := 300
    cursorBlinkDuration := 530
    showCursor := true }

/-- Absolute start time (ms after construction) of character `i`'s reveal in
the Web-Animations variant: `animate()` runs `initialDelay` after `init()`,
and inside it each character gets `setTimeout(..., index * staggerDelay)`. -/
def charRevealStart (cfg : Config) (i : Nat) : Nat :=
  cfg.initialDelay + i * cfg.staggerDelay

/-- Absolute end time of character `i`'s reveal animation (start plus the
`charDuration` passed to `element.animate`). -/
def charRevealEnd (cfg : Config) (i : Nat) : Nat :=
  charRevealStart cfg i + cfg.charDuration

/-- Absolute time at which the Web-Animations variant begins hiding the
cursor: inside `animate()` (which starts at `initialDelay`),
`totalDuration = characters.length * staggerDelay + charDuration + 1000`
and the hide is scheduled by `setTimeout(..., totalDuration)`. -/
def vanillaCursorHideTime (cfg : Config) (n : Nat) : Nat :=
  cfg.initialDelay + (n * cfg.staggerDelay + cfg.charDuration + 1000)

/-- Visual keyframe of a character span: opacity in hundredths and
translateY in pixels. -/
structure Keyframe where
  opacity : Nat
  y : Int
deriving DecidableEq

/-- One character's scheduled reveal animation in the Web-Animations
variant: absolute start, duration, and its two keyframes. -/
structure CharAnim where
  startMs : Nat
  durMs : Nat
  fromState : Keyframe
  toState : Keyframe
deriving DecidableEq

/-- The animation `element.animate([{opacity 0, translateY(8px)},
{opacity 1, translateY(0)}], {duration: charDuration, ...})` scheduled for
character `i` at `initialDelay + i * staggerDelay`. -/
def vanillaCharAnim (cfg : Config) (i : Nat) : CharAnim :=
  { startMs := charRevealStart cfg i
    durMs := cfg.charDuration
    fromState := { opacity := 0, y := 8 }
    toState := { opacity := 100, y := 0 } }

/-- A framer-motion transition config: either a spring (stiffness, damping)
or a duration-based tween, each with a start delay in ms. -/
inductive MotionTransition
  | spring (stiffness damping : Nat) (delayMs : Nat)
  | tween (durMs : Nat) (delayMs : Nat)
deriving DecidableEq

/-- Delay component of a framer-motion transition. -/
def transitionDelayMs : MotionTransition → Nat
  | .spring _ _ d => d
  | .tween _ d => d

/-- Whether a framer-motion transition has a fixed duration (a tween does;
a spring's settling time is determined by its physics, not a duration). -/
def hasFixedDuration : MotionTransition → Bool
  | .spring _ _ _ => false
  | .tween _ _ => true

/-- The React variant's per-character transition (`characterVariants`
`visible(i)`): `{...springTransition, delay: INITIAL_DELAY + i *
STAGGER_DELAY}` where `springTransition = {type: "spring", stiffness: 70,
damping: 15}` and the delay is `0.3 + i * 0.15` seconds. -/
def reactCharTransition (i : Nat) : MotionTransition :=
  .spring 70 15 (300 + i * 150)

/-- `characterVariants.hidden`: `{opacity: 0, y: 8}`. -/
def reactCharHidden : Keyframe := { opacity := 0, y := 8 }

/-- `characterVariants.visible` target: `{opacity: 1, y: 0}`. -/
def reactCharVisible : Keyframe := { opacity := 100, y := 0 }

/-- The React variant's cursor-movement schedule: one
`setTimeout(() => setCursorIndex(index), (INITIAL_DELAY + index *
STAGGER_DELAY) * 1000)` per character. -/
def reactCharTimers (n : Nat) : List Nat :=
  (List.range n).map (fun i => 300 + i * 150)

/-- `totalAnimationTime * 1000` of the React variant:
`(INITIAL_DELAY + characters.length * STAGGER_DELAY + CHAR_DURATION)`
seconds, in ms. -/
def reactTotalAnimationMs (n : Nat) : Nat := 300 + n * 150 + 500

/-- Time at which the React variant retires the cursor: the nested
`setTimeout(() => setCursorIndex(characters.length), 1000)` inside the
`setTimeout(..., totalAnimationTime * 1000)`. -/
def reactCursorRetireMs (n : Nat) : Nat := reactTotalAnimationMs n + 1000

/-- Value of `cursorIndex` at time `t` (ms after mount) in the React
variant, for text length `n`: it starts at -1, each character timer firing
at `300 + i*150` sets it to `i` (the latest fired timer wins), and the
retire timer sets it to `n`. -/
def cursorIndexAt (n t : Nat) : Int :=
  if reactCursorRetireMs n ≤ t then (n : Int)
  else if t < 300 then -1
  else min (((t - 300) / 150 : Nat) : Int) ((n : Int) - 1)

/-- Whether the React variant renders a cursor at time `t`: the JSX shows a
cursor before character 0 while `cursorIndex === -1` (only inside
`characters.map`, so only when `n > 0`) and after character `i` while
`cursorIndex === index` for `0 ≤ index < n`. -/
def cursorRendered (n t : Nat) : Bool :=
  decide ((cursorIndexAt n t = -1 ∧ 0 < n) ∨
    (0 ≤ cursorIndexAt n t ∧ cursorIndexAt n t < (n : Int)))

/-- Kinds of `setTimeout` callbacks scheduled by the framework-free
wordmark variants. -/
inductive TimerKind
  | animateTimer
  | charTimer (i : Nat)
  | blinkStartTimer
  | cursorHideTimer
deriving DecidableEq

/-- A pending timer: absolute fire time and kind. -/
structure Timer where
  fireAt : Nat
  kind : TimerKind
deriving DecidableEq

/-- Timers created by `init()` called at absolute time `now`: it rebuilds
the character spans and schedules `setTimeout(() => this.animate(),
initialDelay)`.  It cancels nothing. -/
def initTimers (cfg : Config) (now : Nat) : List Timer :=
  [{ fireAt := now + cfg.initialDelay, kind := .animateTimer }]

/-- Timers created by `animate()` called at absolute time `now` for text
length `n`: the cursor-blink start (`setTimeout(..., 200)`), one per-character
reveal timer (`setTimeout(..., index * staggerDelay)`), and the cursor hide
(`setTimeout(..., n * staggerDelay + charDuration + 1000)`). -/
def animateTimers (cfg : Config) (n : Nat) (now : Nat) : List Timer :=
  (if cfg.showCursor then [{ fireAt := now + 200, kind := .blinkStartTimer }] else []) ++
  (List.range n).map (fun i => { fireAt := now + i * cfg.staggerDelay, kind := .charTimer i }) ++
  (if cfg.showCursor then
    [{ fireAt := now + (n * cfg.staggerDelay + cfg.charDuration + 1000), kind := .cursorHideTimer }]
   else [])

/-- Pending timers after `replay()` at absolute time `now`: `replay()` runs
`stopCursorBlink()` (which cancels only the blink animation handle; the
GSAP variant additionally runs `killTweensOf`, which kills tweens, not
timers) and then `init()`.  No pending `setTimeout` handle is cleared, so
the previously pending timers survive and a fresh animate timer is added. -/
def replayTimers (cfg : Config) (pending : List Timer) (now : Nat) : List Timer :=
  pending ++ initTimers cfg now

/-- Result of the cursor-positioning step at the top of `animate()`:
`this.element.insertBefore(this.cursor, this.characters[0].element)`.
When the cursor is enabled and the characters array is empty,
`this.characters[0]` is `undefined` and reading `.element` throws. -/
def animateCursorStep (cfg : Config) (chars : List Char) : Except String Unit :=
  if cfg.showCursor then
    match chars.head? with
    | some _ => Except.ok ()
    | none => Except.error "TypeError: cannot read element of undefined"
  else Except.ok ()

end Wordmark

namespace ReactReveal

/-- State of the React `ContentReveal` component: the two `useState`
booleans `isRevealed` and `showHint`. -/
structure St where
  isRevealed : Bool
  showHint : Bool
deriving DecidableEq

/-- Initial state: `useState(false)` for both. -/
def initialSt : St := { isRevealed := false, showHint := false }

/-- Delay of the one-shot hint timer: `setTimeout(() => setShowHint(true),
2500)` installed on mount. -/
def hintDelayMs : Nat := 2500

/-- Effect of the hint timer firing. -/
def hintTimerFire (s : St) : St := { s with showHint := true }

/-- `toggleContent()`: `setIsRevealed(!isRevealed)` and
`if (showHint) setShowHint(false)`.  Both the full-viewport click-capture
`onClick` and the document-level Space/Enter keydown handler call exactly
this function; there is no `transitioning` guard in this variant. -/
def toggleContent (s : St) : St :=
  { isRevealed := !s.isRevealed
    showHint := if s.showHint then false else s.showHint }

/-- Iterate `toggleContent` `n` times (a sequence of user activations). -/
def runToggles (s : St) : Nat → St
  | 0 => s
  | n + 1 => runToggles (toggleContent s) n

/-- The tap hint is rendered only while `showHint && !isRevealed`. -/
def hintRendered (s : St) : Bool := s.showHint && !s.isRevealed

end ReactReveal

namespace GSAPReveal

/-- Visual state of a DOM element driven by GSAP tweens: opacity and scale
in hundredths, translateY in pixels. -/
structure ElemState where
  opacity : Nat
  scale : Nat
  y : Int
deriving DecidableEq

/-- The overlay's `.content-list` holds three items (Design, Architect,
Engineer). -/
def itemCount : Nat := 3

/-- State of the GSAP `ContentReveal` controller: the `isRevealed` and
`animationInProgress` flags, the tap hint's (tween-target) opacity, the
overlay's `visible` class, and the visual states of `main` and the list
items. -/
structure St where
  isRevealed : Bool
  animationInProgress : Bool
  hintOpacity : Nat
  overlayVisible : Bool
  main : ElemState
  items : List ElemState
deriving DecidableEq

/-- Constructor state: both flags false, hint transparent, overlay hidden,
main at full opacity/scale, items as laid out by the markup. -/
def initialSt : St :=
  { isRevealed := false
    animationInProgress := false
    hintOpacity := 0
    overlayVisible := false
    main := { opacity := 100, scale := 100, y := 0 }
    items := List.replicate itemCount { opacity := 100, scale := 100, y := 0 } }

/-- Delay of `init()`'s timer: `setTimeout(() => { this.setupInteraction();
this.showTapHint(); }, 2500)`.  Interaction listeners exist only after it
fires. -/
def interactionReadyMs : Nat := 2500

/-- Synchronous part of `toggleContent()`: `revealContent()` sets
`animationInProgress = true`, `isRevealed = true` and starts the hint
fade-out (`hideTapHint()`); `hideContent()` sets `animationInProgress =
true`, `isRevealed = false`. -/
def toggleStart (s : St) : St :=
  if s.isRevealed then
    { s with isRevealed := false, animationInProgress := true }
  else
    { s with isRevealed := true, animationInProgress := true, hintOpacity := 0 }

/-- The click handler (and identically the Space/Enter keydown handler)
installed by `setupInteraction()`:
`if (this.animationInProgress) return; this.toggleContent();`. -/
def clickHandler (s : St) : St :=
  if s.animationInProgress then s else toggleStart s

/-- A document event (click or Space/Enter) dispatched at absolute time
`t`: before `setupInteraction()` has run (i.e. before the 2500ms init
timer fired) no listener is attached, so the event reaches no handler. -/
def eventAt (s : St) (t : Nat) : St :=
  if t < interactionReadyMs then s else clickHandler s

/-- Dispatch a list of timed document events in order. -/
def runEvents (s : St) : List Nat → St
  | [] => s
  | t :: ts => runEvents (eventAt s t) ts

/-- An entry of a GSAP timeline: position (ms from timeline start) and
duration (0 for `tl.add(callback, pos)`). -/
structure TLEntry where
  startMs : Nat
  durMs : Nat
deriving DecidableEq

/-- A GSAP timeline's duration: the latest end of its entries; its
`onComplete` fires then. -/
def tlDurationMs (es : List TLEntry) : Nat :=
  es.foldr (fun e acc => max (e.startMs + e.durMs) acc) 0

/-- The `revealContent()` master timeline: the `main` fade/scale tween at
position 0 for 0.4s, the overlay-visible callback at 0.2s, and the
`animateContentIn()` callback at 0.4s.  The staggered list-item tween that
`animateContentIn` creates is a separate `gsap.fromTo`, not placed on this
timeline. -/
def revealTL : List TLEntry :=
  [{ startMs := 0, durMs := 400 }, { startMs := 200, durMs := 0 },
   { startMs := 400, durMs := 0 }]

/-- Time after activation at which `animationInProgress` clears during
expand: the reveal timeline's `onComplete`. -/
def expandGuardClearMs : Nat := tlDurationMs revealTL

/-- Start of item `i`'s tween in `animateContentIn()` (ms after
activation): the callback runs at 0.4s into the timeline and its
`gsap.fromTo` uses `delay: 0.2` plus `stagger: 0.06` per item. -/
def itemTweenStartMs (i : Nat) : Nat := 400 + 200 + i * 60

/-- End of item `i`'s tween: start plus `itemDuration` 0.4s. -/
def itemTweenEndMs (i : Nat) : Nat := itemTweenStartMs i + 400

/-- Modelled from the spec (for comparison with `expandGuardClearMs`): the
clearing time the spec asserts, `200ms + (itemCount-1)*60ms + 400ms`. -/
def specExpandGuardClearMs (n : Nat) : Nat := 200 + (n - 1) * 60 + 400

/-- Labels for the steps of the `hideContent()` timeline. -/
inductive HideStep
  | itemsOut
  | overlayHide
  | mainIn
  | hintRearm
deriving DecidableEq

/-- A labelled `hideContent()` timeline entry. -/
structure HideEntry where
  startMs : Nat
  durMs : Nat
  step : HideStep
deriving DecidableEq

/-- The `hideContent()` timeline: the staggered items-out tween at 0 (its
span is 0.3s duration plus `(itemCount-1) * 0.02s` of stagger), the
overlay-hide callback at 0.4s, the `main` fade-in tween at 0.4s for 0.4s,
and the `showTapHint()` callback at 0.6s. -/
def hideTL : List HideEntry :=
  [{ startMs := 0, durMs := 300 + (itemCount - 1) * 20, step := .itemsOut },
   { startMs := 400, durMs := 0, step := .overlayHide },
   { startMs := 400, durMs := 400, step := .mainIn },
   { startMs := 600, durMs := 0, step := .hintRearm }]

/-- Duration of the `hideContent()` timeline. -/
def hideTLDurationMs : Nat :=
  (hideTL.map (fun e => e.startMs + e.durMs)).foldr max 0

/-- A tween of the tap hint's opacity: target (hundredths) and duration. -/
structure HintTween where
  opacityTarget : Nat
  durMs : Nat
deriving DecidableEq

/-- `showTapHint()`: `gsap.to(this.tapHint, {opacity: 0.4, duration: 0.3,
...})`. -/
def showTapHintTween : HintTween := { opacityTarget := 40, durMs := 300 }

/-- State once `revealContent()` and all tweens it started have completed:
`isRevealed` true, guard cleared by the timeline `onComplete`, hint faded
out, overlay visible, `main` at opacity 0 / scale 0.95, every item at
opacity 1 / y 0 (the `fromTo` end state). -/
def revealSettled (s : St) : St :=
  { s with
    isRevealed := true
    animationInProgress := false
    hintOpacity := 0
    overlayVisible := true
    main := { s.main with opacity := 0, scale := 95 }
    items := s.items.map (fun it => { it with opacity := 100, y := 0 }) }

/-- State once `hideContent()` and all tweens it started have completed:
`isRevealed` false, guard cleared, overlay's `visible` class removed,
`main` back at opacity 1 / scale 1, every item tweened to opacity 0 /
y -10, and the hint re-shown at opacity 0.4 by the `showTapHint()`
callback at 0.6s. -/
def hideSettled (s : St) : St :=
  { s with
    isRevealed := false
    animationInProgress := false
    overlayVisible := false
    main := { s.main with opacity := 100, scale := 100 }
    items := s.items.map (fun it => { it with opacity := 0, y := -10 })
    hintOpacity := 40 }

end GSAPReveal

namespace ReactApp

/-- `App.jsx` `mainVariants`: the `motion.main` animates to `hidden`
`{opacity 0, scale 0.95}` while `isContentRevealed` and back to `visible`
`{opacity 1, scale 1}` otherwise. -/
def mainTarget (revealed : Bool) : GSAPReveal.ElemState :=
  if revealed then { opacity := 0, scale := 95, y := 0 }
  else { opacity := 100, scale := 100, y := 0 }

/-- The content overlay (and with it the disciplines list) is mounted only
while `isRevealed` (it sits inside `AnimatePresence` behind
`isRevealed &&`). -/
def overlayMounted (revealed : Bool) : Bool := revealed

/-- Number of list items rendered: the three disciplines while the overlay
is mounted, none otherwise. -/
def renderedItemCount (revealed : Bool) : Nat := if revealed then 3 else 0

end ReactApp

/-- C1 counterexample: the React `ContentReveal` variant has no
`transitioning` guard at all — `toggleContent` flips `isRevealed` on every
activation, so two activations arriving within one transition window
(starting Collapsed, hint showing) change the disclosure state twice
(false to true, then true to false), not once. -/
theorem c1_counterexample_react_double_toggle :
    (ReactReveal.toggleContent { isRevealed := false, showHint := true }).isRevealed = true ∧
    (ReactReveal.toggleContent
      (ReactReveal.toggleContent { isRevealed := false, showHint := true })).isRevealed = false := by
  decide

/-- C1 amended: only the GSAP variant has the re-entrancy guard.  In the
GSAP variant any activation (click or Space/Enter both run the same
handler) while `animationInProgress` is true is a silent no-op, so two
activations within one transition window produce exactly one state change;
in the React variant `toggleContent` unconditionally flips `isRevealed` on
every activation. -/
theorem c1_amended_guard_only_in_gsap_variant :
    (∀ s : GSAPReveal.St,
      GSAPReveal.clickHandler { s with animationInProgress := true } =
        { s with animationInProgress := true }) ∧
    GSAPReveal.clickHandler (GSAPReveal.clickHandler GSAPReveal.initialSt) =
      GSAPReveal.clickHandler GSAPReveal.initialSt ∧
    (GSAPReveal.clickHandler GSAPReveal.initialSt).isRevealed = true ∧
    (∀ s : ReactReveal.St, (ReactReveal.toggleContent s).isRevealed = !s.isRevealed) := by
  refine ⟨fun s => ?_, by decide, by decide, fun s => rfl⟩
  simp [GSAPReveal.clickHandler]

/-- C2 counterexample: in `revealContent()` the `animationInProgress`
guard is cleared by the master timeline's `onComplete`, which fires at
400ms (the timeline's last entry ends there); the staggered list-item
tween is a separate `gsap.fromTo` not on that timeline, so the guard does
not clear at the spec's `200 + (itemCount-1)*60 + 400 = 720ms`, and it
clears before even the first staggered sub-animation completes. -/
theorem c2_counterexample_guard_clears_early :
    GSAPReveal.expandGuardClearMs = 400 ∧
    GSAPReveal.specExpandGuardClearMs GSAPReveal.itemCount = 720 ∧
    GSAPReveal.expandGuardClearMs ≠ GSAPReveal.specExpandGuardClearMs GSAPReveal.itemCount ∧
    GSAPReveal.expandGuardClearMs < GSAPReveal.itemTweenEndMs 0 := by
  decide

/-- C2 amended: `animationInProgress` is set true when a transition starts,
and for the expand direction it is cleared when the master timeline
completes 400ms after activation; the staggered item animations belong to a
separate tween whose item `i` ends at `1000 + i*60` ms after activation
(1120ms for the last of 3 items), strictly after the guard has cleared. -/
theorem c2_amended_guard_clears_at_timeline_end :
    (∀ s : GSAPReveal.St, (GSAPReveal.toggleStart s).animationInProgress = true) ∧
    GSAPReveal.expandGuardClearMs = 400 ∧
    (∀ i : Nat, GSAPReveal.itemTweenEndMs i = 1000 + i * 60) ∧
    GSAPReveal.itemTweenEndMs (GSAPReveal.itemCount - 1) = 1120 ∧
    (∀ i : Nat, GSAPReveal.expandGuardClearMs < GSAPReveal.itemTweenEndMs i) := by
  refine ⟨fun s => ?_, by decide, fun i => ?_, by decide, fun i => ?_⟩
  · unfold GSAPReveal.toggleStart
    split <;> rfl
  · simp [GSAPReveal.itemTweenEndMs, GSAPReveal.itemTweenStartMs]
    omega
  · simp [GSAPReveal.expandGuardClearMs, GSAPReveal.itemTweenEndMs,
      GSAPReveal.itemTweenStartMs, GSAPReveal.revealTL, GSAPReveal.tlDurationMs]

/-- C3 counterexample: both wordmark variants retire the caret at
`initialDelay + N*stagger + charDuration + 1000` = 2100ms for text "ab",
whereas the final character's reveal completes at 950ms, so "final
completion + 1000ms" would be 1950ms, and the claimed 1750ms matches
neither. -/
theorem c3_counterexample_retire_time :
    Wordmark.vanillaCursorHideTime Wordmark.defaultConfig 2 = 2100 ∧
    Wordmark.reactCursorRetireMs 2 = 2100 ∧
    Wordmark.charRevealEnd Wordmark.defaultConfig 1 + 1000 = 1950 ∧
    Wordmark.vanillaCursorHideTime Wordmark.defaultConfig 2 ≠ 1950 ∧
    Wordmark.vanillaCursorHideTime Wordmark.defaultConfig 2 ≠ 1750 := by
  decide

/-- C3 amended: for text "ab" with default config, both variants retire the
caret at t = 2100ms — the fixed 1000ms settle delay measured from
`initialDelay + N*stagger + charDuration`, which is one full stagger
(150ms) after the final character's animation completes at 950ms — and in
the React variant the caret stays hidden at every time at or after
2100ms. -/
theorem c3_amended_caret_retires_at_2100 (t : Nat)
    (ht : Wordmark.reactCursorRetireMs 2 ≤ t) :
    Wordmark.vanillaCursorHideTime Wordmark.defaultConfig 2 =
      Wordmark.charRevealEnd Wordmark.defaultConfig 1 + 1000 + 150 ∧
    Wordmark.vanillaCursorHideTime Wordmark.defaultConfig 2 = 2100 ∧
    Wordmark.reactCursorRetireMs 2 = 2100 ∧
    Wordmark.cursorIndexAt 2 t = 2 ∧
    Wordmark.cursorRendered 2 t = false := by
  refine ⟨by decide, by decide, by decide, ?_, ?_⟩
  · simp [Wordmark.cursorIndexAt, ht]
  · simp [Wordmark.cursorRendered, Wordmark.cursorIndexAt, ht]

/-- C3 witness: the amended theorem applied at t = 5000ms. -/
theorem c3_amended_caret_retires_at_2100_witness :
    Wordmark.reactCursorRetireMs 2 ≤ 5000 ∧
    Wordmark.cursorIndexAt 2 5000 = 2 ∧ Wordmark.cursorRendered 2 5000 = false :=
  ⟨by decide, (c3_amended_caret_retires_at_2100 5000 (by decide)).2.2.2.1,
    (c3_amended_caret_retires_at_2100 5000 (by decide)).2.2.2.2⟩

/-- C4 counterexample: the React variant's per-character transition is the
spring `{stiffness 70, damping 15}` (with the staggered delay), not a
fixed-duration tween — so in that variant the reveal does not "run for
500ms"; its settling time is determined by the spring physics. -/
theorem c4_counterexample_react_spring_has_no_duration :
    Wordmark.reactCharTransition 0 = Wordmark.MotionTransition.spring 70 15 300 ∧
    Wordmark.hasFixedDuration (Wordmark.reactCharTransition 0) = false := by
  decide

/-- C4 amended: with default config, character i's reveal starts at exactly
`300 + i*150` ms in both variants and transitions from {opacity 0, offset
8} to {opacity 1, offset 0}; in the Web-Animations variant it runs for
exactly 500ms, while in the React variant the same keyframes animate under
a spring (stiffness 70, damping 15) with no fixed 500ms duration; start
times are strictly increasing in the index, so reveals occur in ascending
index order. -/
theorem c4_amended_char_schedule (i j : Nat) (hij : i < j) :
    Wordmark.vanillaCharAnim Wordmark.defaultConfig i =
      { startMs := 300 + i * 150, durMs := 500,
        fromState := { opacity := 0, y := 8 }, toState := { opacity := 100, y := 0 } } ∧
    Wordmark.transitionDelayMs (Wordmark.reactCharTransition i) = 300 + i * 150 ∧
    Wordmark.reactCharHidden = { opacity := 0, y := 8 } ∧
    Wordmark.reactCharVisible = { opacity := 100, y := 0 } ∧
    Wordmark.hasFixedDuration (Wordmark.reactCharTransition i) = false ∧
    (Wordmark.vanillaCharAnim Wordmark.defaultConfig i).startMs <
      (Wordmark.vanillaCharAnim Wordmark.defaultConfig j).startMs := by
  refine ⟨rfl, rfl, rfl, rfl, rfl, ?_⟩
  simp [Wordmark.vanillaCharAnim, Wordmark.charRevealStart, Wordmark.defaultConfig]
  omega

/-- C5: `replay()` cancels only the blink animation handle (and, in the
GSAP variant, tweens of the old spans); it never clears pending
`setTimeout` handles.  Called at t = 100ms — before the initial 300ms delay
has elapsed — the old animate timer (t = 300) survives next to the fresh
one (t = 400); when both fire (text "ab"), character 0 ends up with two
pending reveal timers, so the new schedule is double-scheduled rather than
cancel-then-restart. -/
theorem c5_replay_leaves_old_timers_pending :
    Wordmark.replayTimers Wordmark.defaultConfig
        (Wordmark.initTimers Wordmark.defaultConfig 0) 100 =
      [{ fireAt := 300, kind := .animateTimer }, { fireAt := 400, kind := .animateTimer }] ∧
    ((Wordmark.animateTimers Wordmark.defaultConfig 2 300 ++
        Wordmark.animateTimers Wordmark.defaultConfig 2 400).filter
      (fun tm => decide (tm.kind = Wordmark.TimerKind.charTimer 0))).length = 2 := by
  decide

/-- C6: with empty text and the default options (`showCursor` true), the
framework-free `animate()` dereferences `this.characters[0].element` on the
empty characters array and throws a TypeError — a crash the claim
excludes.  The React variant is indeed safe: it schedules no character
timers and never renders the caret for empty text. -/
theorem c6_empty_text_crashes_vanilla_variant :
    Wordmark.animateCursorStep Wordmark.defaultConfig [] =
      Except.error "TypeError: cannot read element of undefined" ∧
    Wordmark.reactCharTimers 0 = [] ∧
    (List.range 0).map (fun i => Wordmark.vanillaCharAnim Wordmark.defaultConfig i) = [] ∧
    ∀ t : Nat, Wordmark.cursorRendered 0 t = false := by
  refine ⟨rfl, by decide, by decide, fun t => ?_⟩
  rw [Wordmark.cursorRendered]
  simp only [decide_eq_false_iff_not]
  rintro (⟨-, h⟩ | ⟨h1, h2⟩)
  · exact absurd h (by decide)
  · omega

/-- Helper: `toggleContent` always leaves `showHint` false. -/
theorem toggleContent_showHint_false (s : ReactReveal.St) :
    (ReactReveal.toggleContent s).showHint = false := by
  cases hs : s.showHint <;> simp [ReactReveal.toggleContent, hs]

/-- Helper: once `showHint` is false, any number of further activations
keeps it false (no code path in the React variant sets it true except the
one-shot mount timer). -/
theorem runToggles_showHint_false :
    ∀ (n : Nat) (s : ReactReveal.St), s.showHint = false →
      (ReactReveal.runToggles s n).showHint = false := by
  intro n
  induction n with
  | zero => intro s h; exact h
  | succ n ih =>
      intro s h
      exact ih (ReactReveal.toggleContent s) (toggleContent_showHint_false s)

/-- C7 counterexample: in the React variant, after the hint timer has
fired and the toggle goes Collapsed to Expanded and back to Collapsed, the
hint is not re-armed — `showHint` was forced false by the first activation
and nothing ever sets it true again, so the hint is not rendered in the
restored Collapsed state. -/
theorem c7_counterexample_react_hint_not_rearmed :
    (ReactReveal.toggleContent (ReactReveal.toggleContent
        (ReactReveal.hintTimerFire ReactReveal.initialSt))).isRevealed = false ∧
    ReactReveal.hintRendered (ReactReveal.toggleContent (ReactReveal.toggleContent
        (ReactReveal.hintTimerFire ReactReveal.initialSt))) = false := by
  decide

/-- C7 amended: only the GSAP variant re-arms the hint.  Its
`hideContent()` timeline runs `showTapHint()` at 600ms (the timeline
completes at 800ms), fading the hint to opacity 0.4 over 300ms, so after a
settled collapse the hint is visible again; the React variant never
re-shows the hint after the first activation, under any number of further
activations. -/
theorem c7_amended_rearm_only_in_gsap_variant :
    ({ startMs := 600, durMs := 0, step := .hintRearm } : GSAPReveal.HideEntry) ∈
      GSAPReveal.hideTL ∧
    GSAPReveal.hideTLDurationMs = 800 ∧
    GSAPReveal.showTapHintTween = { opacityTarget := 40, durMs := 300 } ∧
    (GSAPReveal.hideSettled (GSAPReveal.revealSettled GSAPReveal.initialSt)).hintOpacity = 40 ∧
    (∀ (s : ReactReveal.St) (n : Nat),
      ReactReveal.hintRendered (ReactReveal.runToggles (ReactReveal.toggleContent s) n) = false) := by
  refine ⟨by decide, by decide, by decide, by decide, fun s n => ?_⟩
  have h := runToggles_showHint_false n (ReactReveal.toggleContent s)
    (toggleContent_showHint_false s)
  simp [ReactReveal.hintRendered, h]

/-- C8 counterexample: in the GSAP variant the hint is shown again after
the first activation — `revealContent()` fades it to 0, but the collapse
timeline's `showTapHint()` callback tweens it back to opacity 0.4, so
HintVisibility does not stay false permanently. -/
theorem c8_counterexample_gsap_hint_reshown :
    (GSAPReveal.revealSettled GSAPReveal.initialSt).hintOpacity = 0 ∧
    (GSAPReveal.hideSettled (GSAPReveal.revealSettled GSAPReveal.initialSt)).hintOpacity = 40 ∧
    (GSAPReveal.hideSettled (GSAPReveal.revealSettled GSAPReveal.initialSt)).hintOpacity ≠ 0 := by
  decide

/-- C8 amended: the hint first becomes visible via a single 2500ms timer
after load (both variants).  In the React variant every activation forces
`showHint` false and it stays false under all subsequent activations; in
the GSAP variant, by contrast, the hint is re-shown at opacity 0.4 after
each completed collapse. -/
theorem c8_amended_hint_permanence_react_only :
    ReactReveal.hintDelayMs = 2500 ∧
    GSAPReveal.interactionReadyMs = 2500 ∧
    (ReactReveal.hintTimerFire ReactReveal.initialSt).showHint = true ∧
    (∀ s : ReactReveal.St, (ReactReveal.toggleContent s).showHint = false) ∧
    (∀ (s : ReactReveal.St) (n : Nat),
      (ReactReveal.runToggles (ReactReveal.toggleContent s) n).showHint = false) ∧
    (GSAPReveal.hideSettled (GSAPReveal.revealSettled GSAPReveal.initialSt)).hintOpacity = 40 := by
  refine ⟨by decide, by decide, by decide, fun s => toggleContent_showHint_false s,
    fun s n => runToggles_showHint_false n (ReactReveal.toggleContent s)
      (toggleContent_showHint_false s), by decide⟩

/-- C9: the round trip Collapsed, activate, Expanded, activate, Collapsed
restores the collapsed view in both variants: in the GSAP variant the
settled hide state has main at opacity 1 / scale 1, the overlay hidden and
every list item at opacity 0; in the React variant `isRevealed` is back to
false, so the main target is {opacity 1, scale 1}, the overlay (and with
it every list item) is unmounted. -/
theorem c9_round_trip_restores_collapsed_view :
    ((GSAPReveal.hideSettled (GSAPReveal.revealSettled GSAPReveal.initialSt)).main.opacity = 100 ∧
     (GSAPReveal.hideSettled (GSAPReveal.revealSettled GSAPReveal.initialSt)).main.scale = 100 ∧
     (GSAPReveal.hideSettled (GSAPReveal.revealSettled GSAPReveal.initialSt)).overlayVisible = false ∧
     ((GSAPReveal.hideSettled (GSAPReveal.revealSettled GSAPReveal.initialSt)).items.all
        (fun it => it.opacity == 0)) = true) ∧
    ((ReactReveal.runToggles { isRevealed := false, showHint := true } 2).isRevealed = false ∧
     ReactApp.mainTarget
        (ReactReveal.runToggles { isRevealed := false, showHint := true } 2).isRevealed =
       { opacity := 100, scale := 100, y := 0 } ∧
     ReactApp.overlayMounted
        (ReactReveal.runToggles { isRevealed := false, showHint := true } 2).isRevealed = false ∧
     ReactApp.renderedItemCount
        (ReactReveal.runToggles { isRevealed := false, showHint := true } 2).isRevealed = 0) := by
  decide

/-- C10: in the GSAP variant the click and Space/Enter listeners are
attached only by the 2500ms `init()` timer, so any sequence of document
events whose times are all earlier than 2500ms leaves the controller in
its initial state — the disclosure state cannot change before
t = 2500ms. -/
theorem c10_no_state_change_before_2500 (ts : List Nat)
    (h : ∀ t ∈ ts, t < GSAPReveal.interactionReadyMs) :
    GSAPReveal.runEvents GSAPReveal.initialSt ts = GSAPReveal.initialSt := by
  induction ts with
  | nil => rfl
  | cons t ts ih =>
      have h1 : t < GSAPReveal.interactionReadyMs := h t (List.mem_cons_self t ts)
      have h2 : ∀ x ∈ ts, x < GSAPReveal.interactionReadyMs :=
        fun x hx => h x (List.mem_cons_of_mem t hx)
      simp only [GSAPReveal.runEvents, GSAPReveal.eventAt, if_pos h1]
      exact ih h2

/-- C10 witness: the theorem applied to the event times 0, 100 and 2499. -/
theorem c10_no_state_change_before_2500_witness :
    (∀ t ∈ [0, 100, 2499], t < GSAPReveal.interactionReadyMs) ∧
    GSAPReveal.runEvents GSAPReveal.initialSt [0, 100, 2499] = GSAPReveal.initialSt :=
  ⟨by decide, c10_no_state_change_before_2500 [0, 100, 2499] (by decide)⟩

/-- C4 witness: the amended theorem applied at indices 0 < 1. -/
theorem c4_amended_char_schedule_witness :
    (0 : Nat) < 1 ∧
    (Wordmark.vanillaCharAnim Wordmark.defaultConfig 0).startMs <
      (Wordmark.vanillaCharAnim Wordmark.defaultConfig 1).startMs :=
  ⟨by decide, (c4_amended_char_schedule 0 1 (by decide)).2.2.2.2.2⟩
